import Mathlib

set_option maxHeartbeats 1000000

/-!
Verification development for the pressit-today firmware
(src/firmware/src/main.c, together with the near-duplicate Arduino variant
src/firmware/src/main.cpp).  The C functions relevant to the streak store,
day rollover, captive portal, DNS redirector and claim code are embedded as
executable Lean definitions over an explicit device state.  Machine integers
are modelled as Nat (with the byte masks the C code applies) and Int for the
signed day counter.
-/

/-- Byte shift of the streak bitmap, from shift_streak in main.c:
    streak_data = streak_data >> 1; streak_data &= ~(1 << 6);
    on a uint8_t this is a right shift by one followed by the mask 0xBF
    (clear bit 6). -/
def shiftByte (x : Nat) : Nat := (x >>> 1) &&& 0xBF

/-- Device state: the in-memory globals of main.c that the streak logic uses
    (streak_data, today_state, last_day, ntp_synced), the persistent NVS
    namespace "streak" (key "data", always a byte, and key "lastDay", absent
    until first written), and a ghost counter of shift_streak invocations,
    present only so that shift-count claims can be stated; it is not part of
    the source state. -/
structure DeviceState where
  streak_data : Nat
  today_state : Bool
  last_day : Int
  ntp_synced : Bool
  nvs_data : Nat
  nvs_lastDay : Option Int
  shiftCount : Nat
deriving DecidableEq

/-- shift_streak from main.c: shift the bitmap right by one, clear bit 6,
    reset today_state.  The ghost shiftCount is incremented to record the
    invocation. -/
def shift_streak (s : DeviceState) : DeviceState :=
  { s with streak_data := shiftByte s.streak_data
           today_state := false
           shiftCount := s.shiftCount + 1 }

/-- save_streak from main.c: write streak_data to NVS key "data"; write
    last_day to NVS key "lastDay" only when last_day differs from -1. -/
def save_streak (s : DeviceState) : DeviceState :=
  { s with nvs_data := s.streak_data
           nvs_lastDay := if s.last_day ≠ -1 then some s.last_day else s.nvs_lastDay }

/-- load_streak from main.c: read key "data" (default 0) and key "lastDay"
    (the local defaults to -1 when the key is absent), then recompute
    today_state as (streak_data >> 6) & 1. -/
def load_streak (s : DeviceState) : DeviceState :=
  { s with streak_data := s.nvs_data
           last_day := s.nvs_lastDay.getD (-1)
           today_state := s.nvs_data.testBit 6 }

/-- The toggle action of handle_button in main.c (the debounced falling-edge
    branch): flip today_state, set or clear bit 6 of streak_data to match,
    then persist via save_streak.  The webhook send and LED update have no
    effect on this state. -/
def handle_button_toggle (s : DeviceState) : DeviceState :=
  let t := !s.today_state
  let d := if t then s.streak_data ||| (1 <<< 6) else s.streak_data &&& 0xBF
  save_streak { s with today_state := t, streak_data := d }

/-- All-zero initial state: fresh device, nothing persisted. -/
def initState : DeviceState :=
  { streak_data := 0
    today_state := false
    last_day := -1
    ntp_synced := false
    nvs_data := 0
    nvs_lastDay := none
    shiftCount := 0 }

/-- The three streak-store operations quantified over in the invariant
    claim: button toggle, day shift, and reload from NVS. -/
inductive StreakOp where
  | toggle
  | shift
  | load
deriving DecidableEq

/-- Apply one streak-store operation. -/
def applyOp (s : DeviceState) : StreakOp → DeviceState
  | .toggle => handle_button_toggle s
  | .shift => shift_streak s
  | .load => load_streak s

/-- The invariant of the streak store: bit 6 of the mapping equals the
    today flag. -/
def bit6EqToday (s : DeviceState) : Prop :=
  s.streak_data.testBit 6 = s.today_state

/-- check_midnight_rollover from main.c; cd is the value returned by
    get_current_day.  When synced, the day is valid and differs from the
    recorded one, it shifts once, persists, and updates last_day. -/
def check_midnight_rollover (cd : Int) (s : DeviceState) : DeviceState :=
  if s.ntp_synced = false then s
  else if cd = -1 then s
  else if s.last_day ≠ -1 ∧ cd ≠ s.last_day then
    let s1 := save_streak (shift_streak s)
    { s1 with last_day := cd }
  else s

/-- Iterated shift_streak, for the reconciliation loop in sync_ntp. -/
def shiftIter : Nat → DeviceState → DeviceState
  | 0, s => s
  | n + 1, s => shiftIter n (shift_streak s)

/-- The success branch of sync_ntp in main.c, after NTP reports sync; cd is
    timeinfo.tm_yday.  It sets ntp_synced, records last_day = cd, reads the
    persisted day (default -1), and if that day exists and differs from cd
    it shifts for (i < days_passed && i < 7) iterations and persists.  The
    loop bound equals (min days_passed 7).toNat: zero iterations when
    days_passed is negative, min(days_passed, 7) otherwise. -/
def sync_ntp_success (cd : Int) (s : DeviceState) : DeviceState :=
  let s1 := { s with ntp_synced := true, last_day := cd }
  let saved_day := s1.nvs_lastDay.getD (-1)
  if saved_day ≠ -1 ∧ saved_day ≠ cd then
    let days_passed := cd - saved_day
    let days_passed := if days_passed < 0 then days_passed + 365 else days_passed
    save_streak (shiftIter (min days_passed 7).toNat s1)
  else s1

/-!
DNS redirector (dns_server_task in main.c).  The 512-byte working buffer is
modelled as a total function from index to byte: indices below the datagram
length hold the query bytes, higher indices hold whatever was left in the
buffer (the C array is reused across datagrams).
-/

/-- The question-skipping loop of dns_server_task:
    pos = 12; while (pos < len && buffer[pos] != 0) pos += buffer[pos] + 1;
    Each iteration advances pos by at least one, so at most fuel = len
    iterations can run; the fuel argument is initialised to len by the
    caller and never runs out. -/
def dnsSkipQuestion : Nat → (Nat → Nat) → Nat → Nat → Nat
  | 0, _, _, pos => pos
  | fuel + 1, buf, len, pos =>
    if pos < len ∧ buf pos ≠ 0 then dnsSkipQuestion fuel buf len (pos + (buf pos + 1))
    else pos

/-- Header rewrite of dns_server_task: buffer[2] = 0x81; buffer[3] = 0x80;
    buffer[6] = 0x00; buffer[7] = 0x01 (response flags, answer count 1). -/
def dnsHeaderRewrite (buf : Nat → Nat) : Nat → Nat := fun i =>
  if i = 2 then 0x81
  else if i = 3 then 0x80
  else if i = 6 then 0x00
  else if i = 7 then 0x01
  else buf i

/-- Position right after the question section: the skip loop result plus 5
    (the terminating zero label plus QTYPE and QCLASS). -/
def dnsQuestionEnd (buf : Nat → Nat) (len : Nat) : Nat :=
  dnsSkipQuestion len (dnsHeaderRewrite buf) len 12 + 5

/-- The 16 answer bytes appended by dns_server_task: compressed name pointer
    to offset 12, type A, class IN, TTL 60 seconds, RDLENGTH 4, and the
    portal address 192.168.4.1. -/
def dnsAnswer : List Nat :=
  [0xc0, 0x0c, 0x00, 0x01, 0x00, 0x01, 0x00, 0x00, 0x00, 0x3c, 0x00, 0x04,
   192, 168, 4, 1]

/-- One iteration of the dns_server_task receive loop: a datagram of length
    len below 12 is dropped (continue, no sendto); otherwise the header is
    rewritten in place, the question section is skipped, the answer record
    is appended, and exactly the first dnsQuestionEnd + 16 buffer bytes are
    sent back. -/
def dns_server_task_respond (buf : Nat → Nat) (len : Nat) : Option (List Nat) :=
  if len < 12 then none
  else some ((List.range (dnsQuestionEnd buf len)).map (dnsHeaderRewrite buf) ++ dnsAnswer)

/-!
Captive portal connect handler (http_connect_handler in main.c) and its
hand-rolled JSON field extraction.
-/

/-- True when the second list begins with the first (character comparison,
    the way strncmp-style matching inside strstr proceeds). -/
def listStartsWith : List Char → List Char → Bool
  | [], _ => true
  | _ :: _, [] => false
  | p :: ps, c :: cs => p == c && listStartsWith ps cs

/-- strstr followed by skipping the key: the suffix of content immediately
    after the first occurrence of key, or none when the key is absent. -/
def afterSub (key : List Char) : List Char → Option (List Char)
  | [] => if listStartsWith key [] then some [] else none
  | c :: rest =>
    if listStartsWith key (c :: rest) then some ((c :: rest).drop key.length)
    else afterSub key rest

/-- strchr for a closing double quote: the characters before the first
    quote, or none when no quote follows (in which case the destination
    buffer keeps its zeroed contents). -/
def takeBeforeQuote : List Char → Option (List Char)
  | [] => none
  | c :: rest => if c = '"' then some [] else (takeBeforeQuote rest).map (c :: ·)

/-- Field extraction of http_connect_handler: find the key, take the
    characters up to the closing quote, and copy them only when they fit
    the destination buffer (strncpy guarded by len < bufSize); in every
    other case the field stays empty. -/
def parseField (content : List Char) (key : List Char) (bufSize : Nat) : List Char :=
  match afterSub key content with
  | none => []
  | some rest =>
    match takeBeforeQuote rest with
    | none => []
    | some field => if field.length < bufSize then field else []

/-- The ssid search key of http_connect_handler. -/
def ssidKey : List Char := "\"ssid\":\"".toList

/-- The password search key of http_connect_handler. -/
def passwordKey : List Char := "\"password\":\"".toList

/-- Response body for a missing SSID. -/
def noSsidResp : String := "\x7b\"success\":false,\"error\":\"No SSID provided\"\x7d"

/-- Response body for a failed connection attempt. -/
def failResp : String := "\x7b\"success\":false,\"error\":\"Failed to connect to network\"\x7d"

/-- Response body for a successful connection, carrying the claim code. -/
def successResp (claim : String) : String :=
  "\x7b\"success\":true,\"claim_code\":\"" ++ claim ++ "\"\x7d"

/-- Provisioning-side state touched by http_connect_handler: the retry
    counter and the two event-group signal bits, the station WiFi
    configuration, whether esp_wifi_disconnect was issued, the NVS "wifi"
    namespace, and the provisioning-complete flag. -/
structure PortalState where
  retry_num : Nat
  connected_bit : Bool
  fail_bit : Bool
  sta_ssid : List Char
  sta_password : List Char
  disconnected : Bool
  nvs_wifi_ssid : Option String
  nvs_wifi_password : Option String
  provisioning_done : Bool
deriving DecidableEq

/-- save_wifi_credentials from main.c: persist ssid and password in the
    NVS "wifi" namespace. -/
def save_wifi_credentials (ssid password : List Char) (st : PortalState) : PortalState :=
  { st with nvs_wifi_ssid := some (String.mk ssid)
            nvs_wifi_password := some (String.mk password) }

/-- http_connect_handler from main.c, on a received body.  wifiConnects
    models the outcome of the 15-second xEventGroupWaitBits wait: whether
    WIFI_CONNECTED_BIT was set by the asynchronous WiFi event handler.
    Empty parsed SSID answers the structured error without touching any
    state; otherwise the retry counter and both signal bits are cleared,
    the station disconnects and is reconfigured (ssid and password each
    truncated by strncpy to the config field size minus one), and the
    outcome decides between persisting the credentials with the success
    response and the failure response with nothing persisted. -/
def http_connect_handler (claim_code : String) (wifiConnects : Bool)
    (content : List Char) (st : PortalState) : String × PortalState :=
  let ssid := parseField content ssidKey 33
  let password := parseField content passwordKey 65
  if ssid.length = 0 then
    (noSsidResp, st)
  else
    let st1 := { st with retry_num := 0
                         connected_bit := false
                         fail_bit := false
                         disconnected := true
                         sta_ssid := ssid.take 31
                         sta_password := password.take 63 }
    if wifiConnects then
      let st2 := { save_wifi_credentials ssid password st1 with
                   connected_bit := true, provisioning_done := true }
      (successResp claim_code, st2)
    else
      (failResp, st1)

/-!
Scan handler (http_scan_handler in main.c).
-/

/-- One scanned access point as the handler reads it. -/
structure ApRecord where
  ssid : String
  rssi : Int
  authmode : Nat
deriving DecidableEq

/-- The bucket computation inside the scan loop of http_scan_handler:
    rssi at least -50 gives 4, at least -60 gives 3, at least -70 gives 2,
    else 1.  In main.c the result is stored in the local rssi_level, which
    the snprintf that builds the JSON entry never uses. -/
def rssi_level (rssi : Int) : Int :=
  if rssi ≥ -50 then 4
  else if rssi ≥ -60 then 3
  else if rssi ≥ -70 then 2
  else 1

/-- The entries emitted by http_scan_handler: the record count is capped at
    20 before the loop, records with an empty SSID are skipped, and each
    kept record contributes (ssid, rssi, auth) where the rssi field is the
    raw measured value ap_records[i].rssi passed to snprintf. -/
def http_scan_entries (records : List ApRecord) : List (String × Int × Nat) :=
  (records.take 20).filterMap fun r =>
    if r.ssid.length = 0 then none else some (r.ssid, r.rssi, r.authmode)

/-!
Claim code (generate_claim_code in main.c).
-/

/-- Uppercase hex digit, as produced by snprintf %02X. -/
def hexDigitUpper (n : Nat) : Char := "0123456789ABCDEF".toList.getD n 'X'

/-- The 32-symbol claim-code alphabet of main.c (I, O, 0 and 1 excluded). -/
def claimChars : List Char := "ABCDEFGHJKLMNPQRSTUVWXYZ23456789".toList

/-- The code-emitting loop of generate_claim_code: n characters, each
    chars[hash % 32], with hash /= 32 between characters. -/
def claimCodeLoop : Nat → Nat → List Char
  | 0, _ => []
  | n + 1, h => claimChars.getD (h % 32) 'X' :: claimCodeLoop n (h / 32)

/-- generate_claim_code from main.c on the six MAC bytes: format the MAC as
    twelve uppercase hex characters, fold hash = hash * 31 + character over
    them in a uint32_t (reduced mod 2^32), xor in mac[i] << (i * 4) for the
    six bytes (each summand is below 2^28, so the xor stays below 2^32),
    then emit ten characters with claimCodeLoop (the loop bound
    i < 10 && i < len - 1 is ten for the len = 12 call in app_main). -/
def generate_claim_code (mac : List Nat) : List Char :=
  let macStr := mac.flatMap fun b => [hexDigitUpper (b / 16), hexDigitUpper (b % 16)]
  let h1 := macStr.foldl (fun h c => (h * 31 + c.toNat) % 2 ^ 32) 0
  let h2 := (List.range 6).foldl (fun h i => h ^^^ (mac.getD i 0 <<< (i * 4))) h1
  claimCodeLoop 10 h2

/-!
Webhook signature helpers (bytes_to_hex in main.c).  The keyed hash itself
is esp_hmac_calculate, a vendor hardware peripheral outside this
repository.
-/

/-- Lowercase hex digit, from the hex_chars table of bytes_to_hex. -/
def hexDigitLower (n : Nat) : Char := "0123456789abcdef".toList.getD n 'x'

/-- bytes_to_hex from main.c: two lowercase hex characters per byte, high
    nibble first. -/
def bytes_to_hex (bytes : List Nat) : List Char :=
  bytes.flatMap fun b => [hexDigitLower ((b >>> 4) &&& 0x0F), hexDigitLower (b &&& 0x0F)]

/-!
Concrete example inputs used by witnesses and counterexamples.
-/

/-- A synced device with full streak 0b1111111 whose recorded day is 5,
    observed at current day 7 (two days elapsed). -/
def exRoll : DeviceState :=
  { streak_data := 127
    today_state := true
    last_day := 5
    ntp_synced := true
    nvs_data := 127
    nvs_lastDay := some 5
    shiftCount := 0 }

/-- A freshly booted device whose persisted day is 364, about to sync at
    day-of-year 2 (three days elapsed across the year wrap). -/
def exSync : DeviceState :=
  { streak_data := 127
    today_state := true
    last_day := -1
    ntp_synced := false
    nvs_data := 127
    nvs_lastDay := some 364
    shiftCount := 0 }

/-- A device with unknown current day (last_day = -1) but a previously
    persisted lastDay key. -/
def exSave : DeviceState :=
  { streak_data := 64
    today_state := true
    last_day := -1
    ntp_synced := false
    nvs_data := 0
    nvs_lastDay := some 42
    shiftCount := 0 }

/-- A well-formed 24-byte DNS query for the name abc.co: transaction id
    0x1234, one question, QTYPE A, QCLASS IN. -/
def exQuery : List Nat :=
  [0x12, 0x34, 0x01, 0x00, 0x00, 0x01, 0x00, 0x00, 0x00, 0x00, 0x00, 0x00,
   3, 97, 98, 99, 2, 99, 111, 0, 0, 1, 0, 1]

/-- The DNS working buffer holding exQuery (zero elsewhere). -/
def exBuf : Nat → Nat := fun i => exQuery.getD i 0

/-- The expected response to exQuery: same transaction id and question,
    response flags, answer count 1, and the fabricated A record. -/
def exResp : List Nat :=
  [0x12, 0x34, 0x81, 0x80, 0x00, 0x01, 0x00, 0x01, 0x00, 0x00, 0x00, 0x00,
   3, 97, 98, 99, 2, 99, 111, 0, 0, 1, 0, 1] ++ dnsAnswer

/-- A connect body carrying an SSID and password. -/
def exBody : List Char := "\x7b\"ssid\":\"Home\",\"password\":\"secret123\"\x7d".toList

/-- A connect body without any ssid field. -/
def exBodyNoSsid : List Char := "\x7b\"password\":\"secret123\"\x7d".toList

/-- A portal state with stale retry count and signal bits and nothing
    persisted. -/
def exPortal : PortalState :=
  { retry_num := 3
    connected_bit := true
    fail_bit := true
    sta_ssid := []
    sta_password := []
    disconnected := false
    nvs_wifi_ssid := none
    nvs_wifi_password := none
    provisioning_done := false }

/-- A scan result: one hidden network followed by one named network at
    -55 dBm. -/
def exScanRecords : List ApRecord :=
  [{ ssid := "", rssi := -40, authmode := 1 },
   { ssid := "Home", rssi := -55, authmode := 3 }]

/-- The MAC address AA:BB:CC:DD:EE:FF. -/
def exMac : List Nat := [0xAA, 0xBB, 0xCC, 0xDD, 0xEE, 0xFF]

/-!
Helper lemmas.
-/

theorem testBit_shl6_6 : Nat.testBit (1 <<< 6) 6 = true := by decide

theorem testBit_64_6 : Nat.testBit 64 6 = true := by decide

theorem testBit_maskBF_6 : Nat.testBit 0xBF 6 = false := by decide

theorem testBit_maskBF_low : ∀ i : Fin 6, Nat.testBit 0xBF i.val = true := by decide

/-- Bit 6 of the shifted byte is always clear. -/
theorem shiftByte_bit6 (x : Nat) : (shiftByte x).testBit 6 = false := by
  simp [shiftByte, Nat.testBit_land, testBit_maskBF_6]

/-- Below bit 6, the shifted byte holds the next higher bit of the
    original value. -/
theorem shiftByte_low (x : Nat) (i : Fin 6) :
    (shiftByte x).testBit i.val = x.testBit (i.val + 1) := by
  simp [shiftByte, Nat.testBit_land, testBit_maskBF_low i, Nat.testBit_shiftRight,
    Nat.add_comm]

/-- Every streak-store operation re-establishes the bit-6 invariant. -/
theorem bit6EqToday_applyOp (s : DeviceState) (op : StreakOp) :
    bit6EqToday (applyOp s op) := by
  cases op with
  | toggle =>
    simp only [applyOp, handle_button_toggle, save_streak, bit6EqToday]
    cases s.today_state <;>
      simp [Nat.testBit_lor, Nat.testBit_land, testBit_shl6_6, testBit_64_6,
        testBit_maskBF_6]
  | shift => simpa [applyOp, shift_streak, bit6EqToday] using shiftByte_bit6 s.streak_data
  | load => simp [applyOp, load_streak, bit6EqToday]

/-- The invariant is preserved along any operation sequence. -/
theorem bit6EqToday_foldl (ops : List StreakOp) (s : DeviceState)
    (h : bit6EqToday s) : bit6EqToday (ops.foldl applyOp s) := by
  induction ops generalizing s with
  | nil => exact h
  | cons op ops ih => exact ih (applyOp s op) (bit6EqToday_applyOp s op)

theorem shiftIter_shiftCount (n : Nat) (s : DeviceState) :
    (shiftIter n s).shiftCount = s.shiftCount + n := by
  induction n generalizing s with
  | zero => rfl
  | succ n ih => simp [shiftIter, ih, shift_streak]; omega

theorem shiftIter_last_day (n : Nat) (s : DeviceState) :
    (shiftIter n s).last_day = s.last_day := by
  induction n generalizing s with
  | zero => rfl
  | succ n ih => simp [shiftIter, ih, shift_streak]

theorem shiftIter_ntp_synced (n : Nat) (s : DeviceState) :
    (shiftIter n s).ntp_synced = s.ntp_synced := by
  induction n generalizing s with
  | zero => rfl
  | succ n ih => simp [shiftIter, ih, shift_streak]

/-- The question-skip loop never moves the position backwards. -/
theorem dnsSkipQuestion_ge (fuel : Nat) (buf : Nat → Nat) (len pos : Nat) :
    pos ≤ dnsSkipQuestion fuel buf len pos := by
  induction fuel generalizing pos with
  | zero => exact Nat.le_refl pos
  | succ fuel ih =>
    simp only [dnsSkipQuestion]
    split
    · exact Nat.le_trans (by omega) (ih (pos + (buf pos + 1)))
    · exact Nat.le_refl pos

/-- Reading inside the mapped-range prefix of an appended list. -/
theorem rangeMap_append_getD (n : Nat) (f : Nat → Nat) (t : List Nat) (i : Nat)
    (h : i < n) : ((List.range n).map f ++ t).getD i 0 = f i := by
  rw [List.getD_eq_getElem?_getD, List.getElem?_append]
  simp [List.getElem?_map, List.getElem?_range h, h]

/-- Dropping the mapped-range prefix leaves the appended tail. -/
theorem rangeMap_append_drop (n : Nat) (f : Nat → Nat) (t : List Nat) :
    ((List.range n).map f ++ t).drop n = t := by
  rw [List.drop_append_of_le_length (by simp)]
  simp

/-- Outside indices 2, 3, 6 and 7 the header rewrite is the identity. -/
theorem dnsHeaderRewrite_high (buf : Nat → Nat) (i : Nat) (h : 12 ≤ i) :
    dnsHeaderRewrite buf i = buf i := by
  simp only [dnsHeaderRewrite]
  rw [if_neg (by omega), if_neg (by omega), if_neg (by omega), if_neg (by omega)]

theorem claimCodeLoop_length (n h : Nat) : (claimCodeLoop n h).length = n := by
  induction n generalizing h with
  | zero => rfl
  | succ n ih => simp [claimCodeLoop, ih]

theorem getD_mem {α : Type} (l : List α) (i : Nat) (d : α) (h : i < l.length) :
    l.getD i d ∈ l := by
  rw [List.getD_eq_getElem?_getD, List.getElem?_eq_getElem h]
  exact List.getElem_mem h

theorem claimCodeLoop_mem (n h : Nat) :
    ∀ c ∈ claimCodeLoop n h, c ∈ claimChars := by
  induction n generalizing h with
  | zero => intro c hc; cases hc
  | succ n ih =>
    intro c hc
    cases hc with
    | head => exact getD_mem claimChars (h % 32) 'X' (by
        have h32 : h % 32 < 32 := Nat.mod_lt h (by decide)
        simpa [claimChars] using h32)
    | tail _ hc => exact ih (h / 32) c hc

/-- bytes_to_hex produces two characters per byte. -/
theorem bytes_to_hex_length (bs : List Nat) :
    (bytes_to_hex bs).length = 2 * bs.length := by
  induction bs with
  | nil => rfl
  | cons b bs ih => simp [bytes_to_hex] at ih ⊢; omega

/-- Every character bytes_to_hex produces is a lowercase hex digit.
    Together with bytes_to_hex_length at the 32-byte HMAC output this gives
    the 64-character lowercase hexadecimal signature format of
    calculate_hmac_signature; determinism of the signature is purity of the
    embedding, while the keyed hash itself (esp_hmac_calculate) is hardware
    outside this repository. -/
theorem bytes_to_hex_chars (bs : List Nat) :
    ∀ c ∈ bytes_to_hex bs, c ∈ "0123456789abcdef".toList := by
  induction bs with
  | nil => intro c hc; cases hc
  | cons b bs ih =>
    intro c hc
    simp only [bytes_to_hex, List.flatMap_cons, List.mem_append] at hc
    rcases hc with hc | hc
    · have h4 : (b >>> 4) &&& 0x0F < 16 := Nat.lt_succ_of_le (Nat.and_le_right)
      have h0 : b &&& 0x0F < 16 := Nat.lt_succ_of_le (Nat.and_le_right)
      simp only [List.mem_cons, List.mem_singleton] at hc
      rcases hc with rfl | hc
      · exact getD_mem _ _ _ (by simpa using h4)
      · rcases hc with rfl | hc
        · exact getD_mem _ _ _ (by simpa using h0)
        · cases hc
    · exact ih c hc

/-!
Claim theorems.
-/

/-- C1: starting from the all-zero initial state, after every sequence of
    button-toggle, shift and load operations, bit 6 of the streak mapping
    equals the today flag. -/
theorem C1_bit6_invariant (ops : List StreakOp) :
    bit6EqToday (ops.foldl applyOp initState) :=
  bit6EqToday_foldl ops initState (by exact (by decide : Nat.testBit 0 6 = false))

set_option maxRecDepth 100000 in
/-- C2: for every 8-bit streak value, one shift moves every mapping bit one
    position down (discarding the oldest bit, index 0), leaves bit 6 clear,
    and seven consecutive shifts yield the all-zero mapping. -/
theorem C2_shift_behaviour :
    ∀ x : Fin 256,
      (∀ i : Fin 6, (shiftByte x.val).testBit i.val = x.val.testBit (i.val + 1)) ∧
      (shiftByte x.val).testBit 6 = false ∧
      shiftByte^[7] x.val = 0 := by decide

/-- C3: after a successful first sync at current day cd, when a persisted
    day sd exists (differs from -1) and differs from cd, sync_ntp applies
    shift_streak exactly min(daysElapsed, 7) times where daysElapsed is
    cd - sd plus 365 when negative (hence never negative for days-of-year),
    and then persists the state, the lastDay key receiving cd. -/
theorem C3_sync_reconcile (s : DeviceState) (sd cd : Int)
    (hsd : s.nvs_lastDay = some sd) (h1 : sd ≠ -1) (h2 : sd ≠ cd)
    (h3 : 0 ≤ sd) (h4 : sd ≤ 365) (h5 : 0 ≤ cd) :
    0 ≤ (if cd - sd < 0 then cd - sd + 365 else cd - sd) ∧
    (sync_ntp_success cd s).shiftCount =
      s.shiftCount + (min (if cd - sd < 0 then cd - sd + 365 else cd - sd) 7).toNat ∧
    (sync_ntp_success cd s).nvs_data = (sync_ntp_success cd s).streak_data ∧
    (sync_ntp_success cd s).nvs_lastDay = some cd ∧
    (sync_ntp_success cd s).last_day = cd ∧
    (sync_ntp_success cd s).ntp_synced = true := by
  have hcd : cd ≠ -1 := by omega
  have hres : sync_ntp_success cd s =
      save_streak (shiftIter
        (min (if cd - sd < 0 then cd - sd + 365 else cd - sd) 7).toNat
        { s with ntp_synced := true, last_day := cd }) := by
    simp only [sync_ntp_success, hsd, Option.getD_some]
    rw [if_pos ⟨h1, h2⟩]
  refine ⟨by split <;> omega, ?_, ?_, ?_, ?_, ?_⟩ <;> rw [hres] <;>
    simp [save_streak, shiftIter_shiftCount, shiftIter_last_day,
      shiftIter_ntp_synced, hcd]

/-- Witness for C3: persisted day 364, sync at day-of-year 2, so
    daysElapsed is 3 across the year wrap and three shifts run. -/
theorem C3_witness :
    (0 : Int) ≤ (if (2 : Int) - 364 < 0 then 2 - 364 + 365 else 2 - 364) ∧
    (sync_ntp_success 2 exSync).shiftCount =
      exSync.shiftCount +
        (min (if (2 : Int) - 364 < 0 then (2 : Int) - 364 + 365 else 2 - 364) 7).toNat ∧
    (sync_ntp_success 2 exSync).nvs_data = (sync_ntp_success 2 exSync).streak_data ∧
    (sync_ntp_success 2 exSync).nvs_lastDay = some 2 ∧
    (sync_ntp_success 2 exSync).last_day = 2 ∧
    (sync_ntp_success 2 exSync).ntp_synced = true :=
  C3_sync_reconcile exSync 364 2 rfl (by decide) (by decide) (by decide)
    (by decide) (by decide)

/-- C4 counterexample: with recorded day 5 and current day 7 on a synced
    device, check_midnight_rollover increments the shift count by one,
    not by min(daysElapsed, 7) = 2 as the claim states. -/
theorem C4_counterexample :
    ¬ ((check_midnight_rollover 7 exRoll).shiftCount =
        exRoll.shiftCount +
          (min (if (7 : Int) - exRoll.last_day < 0 then 7 - exRoll.last_day + 365
                else 7 - exRoll.last_day) 7).toNat) := by decide

/-- C4 amended: on a steady-loop tick with time synced, a valid current
    day cd that differs from the recorded day (itself not -1), the rollover
    check applies shift exactly once (mapping bits move one position down
    and bit 6 clears), persists the shifted mapping (the lastDay key
    receiving the previously recorded day), and updates the in-memory
    last_day to cd. -/
theorem C4_rollover_once (s : DeviceState) (cd : Int)
    (h1 : s.ntp_synced = true) (h2 : cd ≠ -1) (h3 : s.last_day ≠ -1)
    (h4 : cd ≠ s.last_day) :
    (check_midnight_rollover cd s).shiftCount = s.shiftCount + 1 ∧
    (∀ i : Fin 6, (check_midnight_rollover cd s).streak_data.testBit i.val =
      s.streak_data.testBit (i.val + 1)) ∧
    (check_midnight_rollover cd s).streak_data.testBit 6 = false ∧
    (check_midnight_rollover cd s).today_state = false ∧
    (check_midnight_rollover cd s).last_day = cd ∧
    (check_midnight_rollover cd s).nvs_data =
      (check_midnight_rollover cd s).streak_data ∧
    (check_midnight_rollover cd s).nvs_lastDay = some s.last_day := by
  have hres : check_midnight_rollover cd s =
      { save_streak (shift_streak s) with last_day := cd } := by
    simp only [check_midnight_rollover]
    rw [if_neg (by simp [h1]), if_neg h2, if_pos ⟨h3, h4⟩]
  rw [hres]
  refine ⟨by simp [save_streak, shift_streak], fun i => ?_, ?_,
    by simp [save_streak, shift_streak], rfl,
    by simp [save_streak, shift_streak], if_pos h3⟩
  · simpa [save_streak, shift_streak] using shiftByte_low s.streak_data i
  · simpa [save_streak, shift_streak] using shiftByte_bit6 s.streak_data

/-- C5: a datagram shorter than 12 bytes produces no response; a datagram
    of at least 12 bytes produces exactly one response that echoes the
    transaction id (bytes 0 and 1) and the whole question section, carries
    answer count exactly 1 (header bytes 6 and 7), and ends with the single
    fabricated A record dnsAnswer: portal address 192.168.4.1 with a
    60-second TTL. -/
theorem C5_dns_redirector (buf : Nat → Nat) (len : Nat) :
    (len < 12 → dns_server_task_respond buf len = none) ∧
    (12 ≤ len → (dns_server_task_respond buf len).isSome = true) ∧
    (12 ≤ len → ∀ r, dns_server_task_respond buf len = some r →
      17 ≤ dnsQuestionEnd buf len ∧
      r.length = dnsQuestionEnd buf len + 16 ∧
      r.getD 0 0 = buf 0 ∧
      r.getD 1 0 = buf 1 ∧
      r.getD 6 0 = 0 ∧
      r.getD 7 0 = 1 ∧
      (∀ i, 12 ≤ i → i < dnsQuestionEnd buf len → r.getD i 0 = buf i) ∧
      r.drop (dnsQuestionEnd buf len) = dnsAnswer) := by
  have hq : 17 ≤ dnsQuestionEnd buf len := by
    have := dnsSkipQuestion_ge len (dnsHeaderRewrite buf) len 12
    simp only [dnsQuestionEnd]
    omega
  refine ⟨fun h => by simp [dns_server_task_respond, h], fun h => ?_, fun h r hr => ?_⟩
  · simp [dns_server_task_respond, Nat.not_lt.mpr h]
  · simp only [dns_server_task_respond, if_neg (Nat.not_lt.mpr h),
      Option.some.injEq] at hr
    subst hr
    refine ⟨hq, ?_, ?_, ?_, ?_, ?_, ?_, ?_⟩
    · simp [dnsAnswer]
    · rw [rangeMap_append_getD _ _ _ _ (by omega)]
      simp [dnsHeaderRewrite]
    · rw [rangeMap_append_getD _ _ _ _ (by omega)]
      simp [dnsHeaderRewrite]
    · rw [rangeMap_append_getD _ _ _ _ (by omega)]
      simp [dnsHeaderRewrite]
    · rw [rangeMap_append_getD _ _ _ _ (by omega)]
      simp [dnsHeaderRewrite]
    · intro i h12 hlt
      rw [rangeMap_append_getD _ _ _ _ hlt, dnsHeaderRewrite_high buf i h12]
    · exact rangeMap_append_drop _ _ _

/-- Witness for C5 at the concrete 24-byte query exQuery: the response is
    exResp, computed by evaluation, and all claimed properties hold there. -/
theorem C5_witness :
    dns_server_task_respond exBuf 24 = some exResp ∧
    (17 ≤ dnsQuestionEnd exBuf 24 ∧
     exResp.length = dnsQuestionEnd exBuf 24 + 16 ∧
     exResp.getD 0 0 = exBuf 0 ∧
     exResp.getD 1 0 = exBuf 1 ∧
     exResp.getD 6 0 = 0 ∧
     exResp.getD 7 0 = 1 ∧
     (∀ i, 12 ≤ i → i < dnsQuestionEnd exBuf 24 → exResp.getD i 0 = exBuf i) ∧
     exResp.drop (dnsQuestionEnd exBuf 24) = dnsAnswer) :=
  ⟨by decide, (C5_dns_redirector exBuf 24).2.2 (by decide) exResp (by decide)⟩

/-- C6: a connect body whose parsed SSID is empty gets the structured
    No-SSID error and leaves the whole portal state untouched; a non-empty
    parsed SSID clears the retry counter and both signal bits, disconnects
    and reconfigures the station; a successful connection persists the
    parsed credentials and answers the success body with the claim code,
    while a failed one answers the failure body and persists nothing. -/
theorem C6_connect_handler (cc : String) (ok : Bool) (content : List Char)
    (st : PortalState) :
    (parseField content ssidKey 33 = [] →
      http_connect_handler cc ok content st = (noSsidResp, st)) ∧
    (parseField content ssidKey 33 ≠ [] →
      ((http_connect_handler cc ok content st).2.retry_num = 0 ∧
       (http_connect_handler cc ok content st).2.disconnected = true ∧
       (http_connect_handler cc ok content st).2.sta_ssid =
         (parseField content ssidKey 33).take 31 ∧
       (http_connect_handler cc ok content st).2.sta_password =
         (parseField content passwordKey 65).take 63) ∧
      (ok = true →
        (http_connect_handler cc ok content st).1 = successResp cc ∧
        (http_connect_handler cc ok content st).2.nvs_wifi_ssid =
          some (String.mk (parseField content ssidKey 33)) ∧
        (http_connect_handler cc ok content st).2.nvs_wifi_password =
          some (String.mk (parseField content passwordKey 65)) ∧
        (http_connect_handler cc ok content st).2.provisioning_done = true) ∧
      (ok = false →
        (http_connect_handler cc ok content st).1 = failResp ∧
        (http_connect_handler cc ok content st).2.nvs_wifi_ssid = st.nvs_wifi_ssid ∧
        (http_connect_handler cc ok content st).2.nvs_wifi_password =
          st.nvs_wifi_password ∧
        (http_connect_handler cc ok content st).2.connected_bit = false ∧
        (http_connect_handler cc ok content st).2.fail_bit = false ∧
        (http_connect_handler cc ok content st).2.provisioning_done =
          st.provisioning_done)) := by
  constructor
  · intro hE
    simp [http_connect_handler, hE]
  · intro hNE
    have hL : ¬ (parseField content ssidKey 33).length = 0 := by
      simpa [List.length_eq_zero] using hNE
    cases ok with
    | true =>
      refine ⟨?_, ?_, ?_⟩
      · simp [http_connect_handler, hL, save_wifi_credentials]
      · intro _
        simp [http_connect_handler, hL, save_wifi_credentials]
      · intro h
        exact nomatch h
    | false =>
      refine ⟨?_, ?_, ?_⟩
      · simp [http_connect_handler, hL]
      · intro h
        exact nomatch h
      · intro _
        simp [http_connect_handler, hL]

/-- Witness for C6: a body with ssid Home and password secret123, a body
    with no ssid field, and both wait outcomes. -/
theorem C6_witness :
    parseField exBodyNoSsid ssidKey 33 = [] ∧
    http_connect_handler "K7X2M" true exBodyNoSsid exPortal = (noSsidResp, exPortal) ∧
    String.mk (parseField exBody ssidKey 33) = "Home" ∧
    String.mk (parseField exBody passwordKey 65) = "secret123" ∧
    (http_connect_handler "K7X2M" true exBody exPortal).1 = successResp "K7X2M" ∧
    (http_connect_handler "K7X2M" true exBody exPortal).2.nvs_wifi_ssid =
      some (String.mk (parseField exBody ssidKey 33)) ∧
    (http_connect_handler "K7X2M" false exBody exPortal).1 = failResp ∧
    (http_connect_handler "K7X2M" false exBody exPortal).2.nvs_wifi_ssid =
      exPortal.nvs_wifi_ssid := by
  refine ⟨by decide,
    (C6_connect_handler "K7X2M" true exBodyNoSsid exPortal).1 (by decide),
    by decide, by decide, ?_, ?_, ?_, ?_⟩
  · exact (((C6_connect_handler "K7X2M" true exBody exPortal).2 (by decide)).2.1 rfl).1
  · exact (((C6_connect_handler "K7X2M" true exBody exPortal).2 (by decide)).2.1 rfl).2.1
  · exact (((C6_connect_handler "K7X2M" false exBody exPortal).2 (by decide)).2.2 rfl).1
  · exact (((C6_connect_handler "K7X2M" false exBody exPortal).2 (by decide)).2.2 rfl).2.1

/-- C7 divergence exhibit: on a scan with a hidden network and a named
    network at -55 dBm the handler skips the hidden entry (and never emits
    more than 20 entries), but the rssi field of the kept entry is the raw
    measured value -55, while the bucket value the claim requires — the
    rssi_level main.c computes with exactly the claimed thresholds and then
    never passes to snprintf — is 3. -/
theorem C7_scan_raw_rssi :
    http_scan_entries exScanRecords = [("Home", -55, 3)] ∧
    rssi_level (-55) = 3 ∧
    ¬ ((-55 : Int) = 3) := by decide

/-- C8: for every MAC byte list the generated claim code has exactly ten
    characters, every character lies in the 32-symbol alphabet claimChars,
    and that alphabet has 32 symbols excluding I, O, 0 and 1.  The code is
    a pure function of the MAC, so determinism across runs is definitional. -/
theorem C8_claim_code (mac : List Nat) :
    (generate_claim_code mac).length = 10 ∧
    (∀ c ∈ generate_claim_code mac, c ∈ claimChars) ∧
    claimChars.length = 32 ∧
    'I' ∉ claimChars ∧ 'O' ∉ claimChars ∧ '0' ∉ claimChars ∧ '1' ∉ claimChars := by
  refine ⟨?_, ?_, by decide, by decide, by decide, by decide, by decide⟩
  · exact claimCodeLoop_length 10 _
  · intro c hc
    exact claimCodeLoop_mem 10 _ c hc

/-- Witness for C8 at the MAC AA:BB:CC:DD:EE:FF. -/
theorem C8_witness :
    (generate_claim_code exMac).length = 10 ∧
    (generate_claim_code exMac).headD 'A' ∈ claimChars :=
  ⟨(C8_claim_code exMac).1, (C8_claim_code exMac).2.1 _ (by decide)⟩

/-- C10: save_streak always writes the mapping byte; the lastDay key is
    written (with the in-memory day) exactly when last_day differs from -1
    and is left untouched when last_day is -1; no in-memory field changes. -/
theorem C10_save_streak_frame (s : DeviceState) :
    (save_streak s).nvs_data = s.streak_data ∧
    (s.last_day = -1 → (save_streak s).nvs_lastDay = s.nvs_lastDay) ∧
    (s.last_day ≠ -1 → (save_streak s).nvs_lastDay = some s.last_day) ∧
    (save_streak s).streak_data = s.streak_data ∧
    (save_streak s).today_state = s.today_state ∧
    (save_streak s).last_day = s.last_day := by
  refine ⟨rfl, fun h => ?_, fun h => ?_, rfl, rfl, rfl⟩
  · simp [save_streak, h]
  · exact if_pos h

/-- Witness for C10 at exSave, whose last_day is -1 while a lastDay value
    42 is already persisted: the save leaves the persisted 42 in place. -/
theorem C10_witness :
    (save_streak exSave).nvs_data = exSave.streak_data ∧
    (save_streak exSave).nvs_lastDay = exSave.nvs_lastDay :=
  ⟨(C10_save_streak_frame exSave).1, (C10_save_streak_frame exSave).2.1 rfl⟩

/-- Witness for the amended C4 at exRoll with current day 7. -/
theorem C4_witness :
    (check_midnight_rollover 7 exRoll).shiftCount = exRoll.shiftCount + 1 ∧
    (∀ i : Fin 6, (check_midnight_rollover 7 exRoll).streak_data.testBit i.val =
      exRoll.streak_data.testBit (i.val + 1)) ∧
    (check_midnight_rollover 7 exRoll).streak_data.testBit 6 = false ∧
    (check_midnight_rollover 7 exRoll).today_state = false ∧
    (check_midnight_rollover 7 exRoll).last_day = 7 ∧
    (check_midnight_rollover 7 exRoll).nvs_data =
      (check_midnight_rollover 7 exRoll).streak_data ∧
    (check_midnight_rollover 7 exRoll).nvs_lastDay = some exRoll.last_day :=
  C4_rollover_once exRoll 7 rfl (by decide) (by decide) (by decide)
